import Mathlib

/-!
Verification of the `test_mcp` MCP server (src/test_mcp) against its
natural-language specification.

The Python sources are shallowly embedded:
* JSON values (the payloads FastAPI decodes into `Dict[str, Any]`) become the
  inductive type `Json`; Python `dict`s become ordered association lists.
* `tools.py` tool bodies become pure Lean functions; their external calls
  (Supabase insert/select, OpenAI file upload, vector-store attach, the
  current timestamp) are threaded in through a `World` record holding each
  call's outcome, and the side effects actually attempted are reported in an
  `Effects` record.
* `http_server.py`'s `verify_auth`, `execute_tool` and the body of the
  `POST /mcp` handler (`mcp_endpoint`) become Lean functions over those
  embeddings; a raised `HTTPException` from `verify_auth` is the
  `authError` outcome, an uncaught Python exception is `uncaught`.
-/

/-- A decoded JSON value, as produced by Python's `json` module / FastAPI.
`i` is a Python `int`, `f` a Python `float` kept as its decimal literal
(no arithmetic is ever performed on floats in this code base), `obj` an
insertion-ordered `dict`. -/
inductive Json where
  | null : Json
  | b (v : Bool) : Json
  | i (n : Int) : Json
  | f (lit : String) : Json
  | s (v : String) : Json
  | arr (elems : List Json) : Json
  | obj (members : List (String × Json)) : Json

/- Characters that the hosting tooling is pickier about are built via
`Char.ofNat`: 34 = double quote, 39 = single quote, 32 = space,
92 = backslash, 123/125 = braces. -/

def qCh : Char := Char.ofNat 34

def sqCh : Char := Char.ofNat 39

def spCh : Char := Char.ofNat 32

def bsCh : Char := Char.ofNat 92

def lbCh : Char := Char.ofNat 123

def rbCh : Char := Char.ofNat 125

def qStr : String := String.singleton qCh

def lbStr : String := String.singleton lbCh

def rbStr : String := String.singleton rbCh

/-- First-match lookup in an ordered association list: Python `d[k]` /
`k in d` on a `dict` (keys are unique in a decoded JSON object, so
first-match agrees with `dict` lookup). -/
def jlookup (l : List (String × Json)) (k : String) : Option Json :=
  (l.find? (fun p => p.1 == k)).map Prod.snd

/-- Python `d.get(k)`: `None` when the key is absent, and also `None` when the
stored JSON value was `null` (JSON `null` decodes to Python `None`). -/
def pyGet (l : List (String × Json)) (k : String) : Option Json :=
  match jlookup l k with
  | some .null => none
  | o => o

/-- Lookup of a key in a JSON value known to be an object (used to inspect
result records in theorem statements). -/
def Json.jget : Json → String → Option Json
  | .obj l, k => jlookup l k
  | _, _ => none

/-- Python truthiness of a decoded JSON value. -/
def truthy : Json → Bool
  | .null => false
  | .b v => v
  | .i n => n != 0
  | .f lit => !(lit.toList.all (fun c => c = '0' || c = '.' || c = '-' || c = '+'))
  | .s v => !v.isEmpty
  | .arr l => !l.isEmpty
  | .obj l => !l.isEmpty

/-- Python truthiness of an optional value (`None` is falsy). -/
def optTruthy : Option Json → Bool
  | none => false
  | some v => truthy v

/-- `j == "lit"` in Python: true exactly when the value is the string `lit`. -/
def Json.isStr : Json → String → Bool
  | .s v, lit => v == lit
  | _, _ => false

/-- `o == "lit"` in Python for an optional value. -/
def optIsStr (o : Option Json) (lit : String) : Bool :=
  match o with
  | some j => j.isStr lit
  | none => false

/-- One textual rendering style; `json.dumps` and Python `repr` share the
same recursive structure and differ only in these parameters. -/
structure SerStyle where
  quote : String
  itemSep : String
  kvSep : String
  tNull : String
  tTrue : String
  tFalse : String

def jsonStyle : SerStyle :=
  ⟨qStr, ", ", ": ", "null", "true", "false"⟩

def pyReprStyle : SerStyle :=
  ⟨String.singleton sqCh, ", ", ": ", "None", "True", "False"⟩

/-- Minimal string escaping (backslash and the quote character); every string
this code base actually serializes is plain printable ASCII without quotes. -/
def escapeStr (quote : String) (v : String) : String :=
  String.join (v.toList.map (fun c =>
    if c = bsCh then String.singleton bsCh ++ String.singleton bsCh
    else if String.singleton c = quote then String.singleton bsCh ++ String.singleton c
    else String.singleton c))

mutual

/-- Render a JSON value in the given style; with `jsonStyle` this is
`json.dumps(v)` with its default separators `(", ", ": ")`. -/
def render (st : SerStyle) : Json → String
  | .null => st.tNull
  | .b true => st.tTrue
  | .b false => st.tFalse
  | .i n => toString n
  | .f lit => lit
  | .s v => st.quote ++ escapeStr st.quote v ++ st.quote
  | .arr l => "[" ++ renderList st l ++ "]"
  | .obj l => lbStr ++ renderObj st l ++ rbStr

def renderList (st : SerStyle) : List Json → String
  | [] => ""
  | [x] => render st x
  | x :: y :: tl => render st x ++ st.itemSep ++ renderList st (y :: tl)

def renderObj (st : SerStyle) : List (String × Json) → String
  | [] => ""
  | [(k, v)] => st.quote ++ escapeStr st.quote k ++ st.quote ++ st.kvSep ++ render st v
  | (k, v) :: m :: tl =>
      st.quote ++ escapeStr st.quote k ++ st.quote ++ st.kvSep ++ render st v
        ++ st.itemSep ++ renderObj st (m :: tl)

end

/-- `json.dumps(v)` with default separators, as used by the `/mcp` endpoint. -/
def jsonDumps (v : Json) : String := render jsonStyle v

/-- Python `str(v)` of a decoded JSON value (scalars print directly;
containers print via `repr`). -/
def pyStr : Json → String
  | .null => "None"
  | .b true => "True"
  | .b false => "False"
  | .i n => toString n
  | .f lit => lit
  | .s v => v
  | .arr l => render pyReprStyle (.arr l)
  | .obj l => render pyReprStyle (.obj l)

/-- Python `s.strip(c)`: remove every leading and trailing occurrence of `c`. -/
def pyStrip (c : Char) (v : String) : String :=
  (((v.toList.dropWhile (fun d => d == c)).reverse.dropWhile (fun d => d == c)).reverse).asString

/-- Python `s.partition(" ")` restricted to the two components the code uses:
the part before the first space and the part after it (`("", s)` never occurs
here; with no space the pair is `(s, "")`, exactly as in Python). -/
def pyPartitionSpace (v : String) : String × String :=
  let pre := v.toList.takeWhile (fun c => !(c == spCh))
  let post := v.toList.dropWhile (fun c => !(c == spCh))
  (pre.asString, (post.drop 1).asString)

/-- Python `s.lower()` (ASCII case folding, all that is exercised here). -/
def toLowerStr (v : String) : String :=
  (v.toList.map Char.toLower).asString

/-- A raised `HTTPException(status_code, detail)`. -/
structure AuthError where
  status : Nat
  detail : String
deriving DecidableEq

/-- `verify_auth` from src/test_mcp/http_server.py: `expected` is
`os.getenv("MCP_API_KEY", "")`, `authorization` the raw header value.
An `.error` is the raised `HTTPException`. -/
def verify_auth (expected : String) (authorization : String) : Except AuthError String :=
  if authorization = "" then
    .error ⟨401, "Missing Authorization header"⟩
  else
    let pr := pyPartitionSpace authorization
    let scheme := pr.1
    let token := pr.2
    if toLowerStr scheme ≠ "bearer" then
      .error ⟨401, "Invalid authorization scheme. Use Bearer token."⟩
    else if token = "" then
      .error ⟨401, "Missing token"⟩
    else
      let token := pyStrip qCh token
      if expected ≠ "" ∧ token ≠ expected then
        .error ⟨403, "Invalid token"⟩
      else
        .ok token

/-! ## A small JSON parser
Used to state "the returned text content parses as JSON" (claim C5).
Recursive descent over the character list with a fuel bound. -/

def isWs (c : Char) : Bool :=
  c == spCh || c == Char.ofNat 9 || c == Char.ofNat 10 || c == Char.ofNat 13

def skipWs (cs : List Char) : List Char :=
  cs.dropWhile isWs

def numChar (c : Char) : Bool :=
  c.isDigit || c == '-' || c == '+' || c == '.' || c == 'e' || c == 'E'

def digitsToNat (l : List Char) : Nat :=
  l.foldl (fun a c => a * 10 + (c.toNat - 48)) 0

def parseIntLit (l : List Char) : Int :=
  match l with
  | c :: tl => if c = '-' then -(digitsToNat tl : Int) else (digitsToNat l : Int)
  | [] => 0

/-- Classify a numeric literal: a fractional/exponent marker makes it a float. -/
def mkNum (l : List Char) : Json :=
  if l.any (fun c => c == '.' || c == 'e' || c == 'E') then .f l.asString
  else .i (parseIntLit l)

def unescCh (c : Char) : Char :=
  if c = 'n' then Char.ofNat 10
  else if c = 't' then Char.ofNat 9
  else if c = 'r' then Char.ofNat 13
  else c

/-- Parse a string literal body (the opening quote already consumed). -/
def parseStringLit : Nat → List Char → Option (String × List Char)
  | 0, _ => none
  | _, [] => none
  | fuel + 1, c :: cs =>
    if c = qCh then some ("", cs)
    else if c = bsCh then
      match cs with
      | [] => none
      | d :: cs2 =>
        (parseStringLit fuel cs2).map
          (fun p => (String.singleton (unescCh d) ++ p.1, p.2))
    else
      (parseStringLit fuel cs).map (fun p => (String.singleton c ++ p.1, p.2))

mutual

def parseVal : Nat → List Char → Option (Json × List Char)
  | 0, _ => none
  | fuel + 1, cs =>
    match skipWs cs with
    | [] => none
    | c :: rest =>
      if c = qCh then
        (parseStringLit (fuel + 1) rest).map (fun p => (.s p.1, p.2))
      else if c = lbCh then
        match skipWs rest with
        | d :: rest2 =>
          if d = rbCh then some (.obj [], rest2)
          else parseMembers fuel (d :: rest2)
        | [] => none
      else if c = '[' then
        match skipWs rest with
        | d :: rest2 =>
          if d = ']' then some (.arr [], rest2)
          else parseElems fuel (d :: rest2)
        | [] => none
      else if c = 'n' then
        match rest with
        | 'u' :: 'l' :: 'l' :: r => some (.null, r)
        | _ => none
      else if c = 't' then
        match rest with
        | 'r' :: 'u' :: 'e' :: r => some (.b true, r)
        | _ => none
      else if c = 'f' then
        match rest with
        | 'a' :: 'l' :: 's' :: 'e' :: r => some (.b false, r)
        | _ => none
      else if numChar c then
        some (mkNum ((c :: rest).takeWhile numChar), (c :: rest).dropWhile numChar)
      else none

/-- Parse the members of an object, positioned at the first key's quote. -/
def parseMembers : Nat → List Char → Option (Json × List Char)
  | 0, _ => none
  | fuel + 1, cs =>
    match skipWs cs with
    | c :: rest =>
      if c = qCh then
        match parseStringLit (fuel + 1) rest with
        | some (k, r1) =>
          match skipWs r1 with
          | ':' :: r2 =>
            match parseVal fuel r2 with
            | some (v, r3) =>
              match skipWs r3 with
              | ',' :: r4 =>
                (match parseMembers fuel r4 with
                 | some (.obj tl, r5) => some (.obj ((k, v) :: tl), r5)
                 | _ => none)
              | d :: r4 =>
                if d = rbCh then some (.obj [(k, v)], r4) else none
              | [] => none
            | none => none
          | _ => none
        | none => none
      else none
    | [] => none

/-- Parse the elements of an array, positioned at the first element. -/
def parseElems : Nat → List Char → Option (Json × List Char)
  | 0, _ => none
  | fuel + 1, cs =>
    match parseVal fuel cs with
    | some (v, r1) =>
      match skipWs r1 with
      | ',' :: r2 =>
        (match parseElems fuel r2 with
         | some (.arr tl, r3) => some (.arr (v :: tl), r3)
         | _ => none)
      | ']' :: r2 => some (.arr [v], r2)
      | _ => none
    | none => none

end

/-- Parse a complete JSON document. -/
def parseJson (v : String) : Option Json :=
  match parseVal (v.length + 1) v.toList with
  | some (j, rest) => if skipWs rest = [] then some j else none
  | none => none

example : parseJson "null" = some .null := by rfl
example : parseJson " [1, -2, 0.5] " = some (.arr [.i 1, .i (-2), .f "0.5"]) := by rfl
example :
    parseJson (lbStr ++ qStr ++ "a" ++ qStr ++ ": [true, " ++ lbStr ++ rbStr ++ "]" ++ rbStr)
      = some (.obj [("a", .arr [.b true, .obj []])]) := by rfl
example :
    parseJson (jsonDumps (.obj [("id", .s "abc"), ("m", .obj [("t", .arr [.s "x", .i 3])])]))
      = some (.obj [("id", .s "abc"), ("m", .obj [("t", .arr [.s "x", .i 3])])]) := by rfl

/-! ## Configuration, external world, side-effect trace -/

/-- The fields of `config.Settings` that the tools read (src/test_mcp/config.py,
all defaulting to the empty string). -/
structure Settings where
  SUPABASE_URL : String
  SUPABASE_KEY : String
  OPENAI_API_KEY : String
  OPENAI_VECTOR_STORE_ID : String

/-- Outcomes of the external calls a tool invocation may perform, threaded in
as data. `insertResult` is the Supabase insert reduced to what the code reads
from it (`result.data[0]["id"] if result.data else None`, `.error` = raised
exception); `queryResult` the rows of the Supabase select; `fileUploadId`
the OpenAI `files.create` response id; `vectorAttachResp` the decoded JSON of
the vector-store attach response; `now` is `datetime.utcnow().isoformat()`. -/
structure World where
  insertResult : Except String (Option Json)
  queryResult : Except String (List Json)
  fileUploadId : Except String String
  vectorAttachResp : Except String Json
  now : String

/-- Which externally visible steps a call actually attempted. -/
structure Effects where
  toolRun : Option String
  insertAttempted : Bool
  uploadAttempted : Bool
  queryAttempted : Bool
deriving DecidableEq

def noEffects : Effects := ⟨none, false, false, false⟩

/-! ## Tool bodies (src/test_mcp/tools.py) -/

/-- The fixed in-memory candidate list of `search_items_tool` (`mock_items`).
`q` is the already-`str()`-converted query that the f-strings interpolate. -/
def mock_items (q : String) : List Json :=
  [ .obj [("id", .s "item_001"),
          ("title", .s ("Result for \x27" ++ q ++ "\x27 - Item 1")),
          ("summary", .s "This is a mock search result. Replace with real data."),
          ("score", .f "0.95")],
    .obj [("id", .s "item_002"),
          ("title", .s ("Result for \x27" ++ q ++ "\x27 - Item 2")),
          ("summary", .s "Another mock result from the search."),
          ("score", .f "0.87")],
    .obj [("id", .s "item_003"),
          ("title", .s ("Result for \x27" ++ q ++ "\x27 - Item 3")),
          ("summary", .s "Third mock result demonstrating pagination."),
          ("score", .f "0.76")]]

/-- Python list slicing `l[:i]` for an `int` index (negative indices count
from the end, exactly as in Python). -/
def pySliceTo (i : Int) (l : List α) : List α :=
  if 0 ≤ i then l.take i.toNat else l.take (l.length - (-i).toNat)

/-- `search_items_tool`: truncates `mock_items` to `limit` (default 10 when
the key is absent); slicing with a non-`int` raises `TypeError`, returned as
`.error` (the message is representative, the code never catches it). -/
def search_items_tool (a : List (String × Json)) : Except String Json :=
  let query := pyStr ((jlookup a "query").getD (.s ""))
  match (jlookup a "limit").getD (.i 10) with
  | .i limit =>
    let items := pySliceTo limit (mock_items query)
    let next_cursor : Json :=
      if ((mock_items query).length : Int) > limit then .s "cursor_next_page" else .null
    .ok (.obj [("items", .arr items),
               ("nextCursor", next_cursor),
               ("total", .i ((mock_items query).length : Int))])
  | _ => .error "TypeError: slice indices must be integers"

/-- `get_item_tool`: synthesizes a record from the given id (the raw value is
stored under `id`, its `str()` form is interpolated into `title` and `url`). -/
def get_item_tool (a : List (String × Json)) : Json :=
  let item_id := (jlookup a "id").getD (.s "")
  .obj [("id", item_id),
        ("title", .s ("Item " ++ pyStr item_id)),
        ("body", .s "This is the detailed content of the item. Replace with real data from your database or API."),
        ("createdAt", .s "2025-10-08T08:00:00Z"),
        ("updatedAt", .s "2025-10-08T08:30:00Z"),
        ("url", .s ("https://example.com/items/" ++ pyStr item_id)),
        ("metadata", .obj [("author", .s "Test Author"),
                           ("tags", .arr [.s "test", .s "mock", .s "example"])])]

/-- `health_tool`: static payload (its `arguments` parameter is never read). -/
def health_tool : Json :=
  .obj [("status", .s "healthy"),
        ("server", .s "test-mcp-server"),
        ("version", .s "0.1.0"),
        ("timestamp", .s "2025-10-08T08:43:00Z")]

/-- The `ValueError` message of `get_supabase_client` and the failure record
both documentation tools build from it. -/
def supabaseConfigMsg : String :=
  "SUPABASE_URL and SUPABASE_KEY must be set in environment variables"

def configErrorJson : Json :=
  .obj [("success", .b false),
        ("error", .s supabaseConfigMsg),
        ("message", .s "Supabase configuration error")]

/-- `get_supabase_client` raises exactly when a credential is unset (empty). -/
def supabaseCredsMissing (st : Settings) : Bool :=
  st.SUPABASE_URL.isEmpty || st.SUPABASE_KEY.isEmpty

/-- `get_documentation_tool`. Returns the result record and whether the
Supabase read query was issued. The `try` block catches everything, so the
function never raises: a missing credential becomes the configuration-error
record, a non-dict `arguments` hits `arguments.get` and becomes the generic
failure record. -/
def get_documentation_tool (st : Settings) (w : World) (argJ : Json) : Json × Bool :=
  if supabaseCredsMissing st then
    (configErrorJson, false)
  else
    match argJ with
    | .obj a =>
      let doc_id := pyGet a "id"
      if !optTruthy doc_id then
        (.obj [("success", .b false), ("error", .s "Missing required field: id")], false)
      else
        match w.queryResult with
        | .error e =>
          (.obj [("success", .b false), ("error", .s e),
                 ("message", .s "Failed to retrieve documentation")], true)
        | .ok [] =>
          (.obj [("success", .b false),
                 ("error", .s ("Documentation with id " ++ String.singleton sqCh
                   ++ pyStr (doc_id.getD .null) ++ String.singleton sqCh ++ " not found"))], true)
        | .ok (row :: _) =>
          (.obj [("success", .b true), ("documentation", row)], true)
    | _ =>
      (.obj [("success", .b false), ("error", .s "AttributeError: arguments is not a dict"),
             ("message", .s "Failed to retrieve documentation")], false)

/-- The record `save_documentation_tool` inserts: the twelve argument fields
with `None` values removed, then the two timestamps. -/
def saveData (a : List (String × Json)) (now : String) : List (String × Json) :=
  ([("api_name", pyGet a "api_name"),
    ("endpoint_path", pyGet a "endpoint_path"),
    ("http_method", pyGet a "http_method"),
    ("category", pyGet a "category"),
    ("title", pyGet a "title"),
    ("documentation", pyGet a "documentation"),
    ("short_description", pyGet a "short_description"),
    ("tags", pyGet a "tags"),
    ("version", pyGet a "version"),
    ("examples", pyGet a "examples"),
    ("parameters", pyGet a "parameters"),
    ("source_url", pyGet a "source_url"),
    ("created_at", some (.s now)),
    ("updated_at", some (.s now))]).filterMap
      (fun p => p.2.map (fun v => (p.1, v)))

/-- `save_documentation_tool`. Returns the result record and the attempted
side effects. The whole vector-store block sits inside its own `try` whose
failure is only logged, so any `.error` in the upload steps (or a non-dict
attach response, whose `.get` would raise inside that `try`) leaves
`vector_store_file_id = None` without failing the save. -/
def save_documentation_tool (st : Settings) (w : World) (argJ : Json) : Json × Effects :=
  if supabaseCredsMissing st then
    (configErrorJson, noEffects)
  else
    match argJ with
    | .obj a =>
      let _data := saveData a w.now
      match w.insertResult with
      | .error e =>
        (.obj [("success", .b false), ("error", .s e),
               ("message", .s "Failed to save documentation")],
         { noEffects with insertAttempted := true })
      | .ok doc_id =>
        let doUpload := optTruthy (pyGet a "short_description")
          && !st.OPENAI_API_KEY.isEmpty && !st.OPENAI_VECTOR_STORE_ID.isEmpty
        let vsfid : Option Json :=
          if doUpload then
            match w.fileUploadId with
            | .error _ => none
            | .ok _ =>
              match w.vectorAttachResp with
              | .error _ => none
              | .ok (.obj r) => pyGet r "id"
              | .ok _ => none
          else none
        let message := "Documentation saved successfully"
          ++ (if optTruthy vsfid then " and uploaded to vector store" else "")
        (.obj [("success", .b true),
               ("id", doc_id.getD .null),
               ("vector_store_file_id", vsfid.getD .null),
               ("message", .s message)],
         { noEffects with insertAttempted := true, uploadAttempted := doUpload })
    | _ =>
      (.obj [("success", .b false), ("error", .s "AttributeError: arguments is not a dict"),
             ("message", .s "Failed to save documentation")], noEffects)

/-! ## Tool registry (src/test_mcp/http_server.py, `get_tool_definitions`) -/

structure ToolDefinition where
  name : String
  description : String
  inputSchema : Json
  outputSchema : Json

/-- `t.model_dump()` of a `ToolDefinition` pydantic model. -/
def ToolDefinition.model_dump (t : ToolDefinition) : Json :=
  .obj [("name", .s t.name), ("description", .s t.description),
        ("inputSchema", t.inputSchema), ("outputSchema", t.outputSchema)]

def searchItemsSchema : Json :=
  .obj [("type", .s "object"),
        ("properties", .obj [
          ("query", .obj [("type", .s "string"),
                          ("description", .s "Search query string"),
                          ("minLength", .i 1)]),
          ("limit", .obj [("type", .s "integer"),
                          ("description", .s "Maximum number of results to return"),
                          ("minimum", .i 1), ("maximum", .i 50), ("default", .i 10)]),
          ("cursor", .obj [("type", .s "string"),
                           ("description", .s "Pagination cursor for fetching next page")])]),
        ("required", .arr [.s "query"]),
        ("additionalProperties", .b false)]

def getItemSchema : Json :=
  .obj [("type", .s "object"),
        ("properties", .obj [
          ("id", .obj [("type", .s "string"),
                       ("description", .s "Unique identifier of the item"),
                       ("minLength", .i 1)])]),
        ("required", .arr [.s "id"]),
        ("additionalProperties", .b false)]

def healthSchema : Json :=
  .obj [("type", .s "object"),
        ("properties", .obj []),
        ("additionalProperties", .b false)]

def getDocumentationSchema : Json :=
  .obj [("type", .s "object"),
        ("properties", .obj [
          ("id", .obj [("type", .s "string"),
                       ("description", .s "The UUID of the documentation record to retrieve")])]),
        ("required", .arr [.s "id"]),
        ("additionalProperties", .b false)]

def getDocumentationOutputSchema : Json :=
  .obj [("type", .s "object"),
        ("properties", .obj [
          ("success", .obj [("type", .s "boolean"),
                            ("description", .s "Whether the request succeeded")]),
          ("id", .obj [("type", .s "string"),
                       ("description", .s "The UUID of the documentation")]),
          ("formatted_documentation", .obj [("type", .s "string"),
            ("description", .s "Human-readable markdown formatted documentation")]),
          ("raw_data", .obj [("type", .s "object"),
            ("description", .s "Raw database record with all fields")]),
          ("error", .obj [("type", .s "string"),
            ("description", .s "Error message if success is false")])]),
        ("required", .arr [.s "success"])]

def saveDocumentationSchema : Json :=
  .obj [("type", .s "object"),
        ("properties", .obj [
          ("api_name", .obj [("type", .s "string"),
            ("description", .s "Name of the API (e.g., \x27Stripe\x27, \x27OpenAI\x27)")]),
          ("endpoint_path", .obj [("type", .s "string"),
            ("description", .s "The endpoint path (e.g., \x27/v1/chat/completions\x27)")]),
          ("http_method", .obj [("type", .s "string"),
            ("description", .s "HTTP method (GET, POST, PUT, DELETE, etc.)")]),
          ("category", .obj [("type", .s "string"),
            ("description", .s "Short category string for organizing documentation")]),
          ("title", .obj [("type", .s "string"),
            ("description", .s "Human-readable title for the endpoint")]),
          ("documentation", .obj [("type", .s "string"),
            ("description", .s "The full documentation text")]),
          ("short_description", .obj [("type", .s "string"),
            ("description", .s "Short description for vector store semantic search (will be uploaded to OpenAI with metadata)")]),
          ("tags", .obj [("type", .s "array"),
            ("items", .obj [("type", .s "string")]),
            ("description", .s "Optional array of tags for filtering")]),
          ("version", .obj [("type", .s "string"),
            ("description", .s "Optional API version (e.g., \x27v1\x27, \x272024-01-15\x27)")]),
          ("examples", .obj [("type", .s "object"),
            ("description", .s "Optional JSON object with code examples")]),
          ("parameters", .obj [("type", .s "object"),
            ("description", .s "Optional JSON object describing parameters")]),
          ("source_url", .obj [("type", .s "string"),
            ("description", .s "Optional URL to original documentation")])]),
        ("required", .arr [.s "api_name", .s "documentation"]),
        ("additionalProperties", .b false)]

def saveDocumentationOutputSchema : Json :=
  .obj [("type", .s "object"),
        ("properties", .obj [
          ("success", .obj [("type", .s "boolean"),
            ("description", .s "Whether the save operation succeeded")]),
          ("id", .obj [("type", .s "string"),
            ("description", .s "The UUID of the created documentation record")]),
          ("vector_store_file_id", .obj [("type", .s "string"),
            ("description", .s "OpenAI vector store file ID (if uploaded)")]),
          ("message", .obj [("type", .s "string"),
            ("description", .s "Human-readable success or error message")]),
          ("error", .obj [("type", .s "string"),
            ("description", .s "Detailed error message if success is false")])]),
        ("required", .arr [.s "success", .s "message"])]

def get_tool_definitions : List ToolDefinition :=
  [⟨"search_items",
    "Search for items in the database. Returns a list of matching items with pagination support.",
    searchItemsSchema, .obj []⟩,
   ⟨"get_item",
    "Retrieve a single item by its ID. Returns detailed information about the item.",
    getItemSchema, .obj []⟩,
   ⟨"health",
    "Check the health status of the server and any upstream dependencies.",
    healthSchema, .obj []⟩,
   ⟨"get_documentation",
    "Retrieve API documentation from the database by ID. Use this to fetch full documentation details after finding relevant docs via semantic search.",
    getDocumentationSchema, getDocumentationOutputSchema⟩,
   ⟨"save_documentation",
    "Save API documentation to the database and upload to OpenAI vector store for semantic search. Use this to store detailed documentation about API endpoints.",
    saveDocumentationSchema, saveDocumentationOutputSchema⟩]

/-- The registered tool names, in registry order. -/
def registryNames : List String := (get_tool_definitions).map ToolDefinition.name

/-- The declared input schema of a registered tool. -/
def inputSchemaOf (name : String) : Json :=
  ((get_tool_definitions.find? (fun t => t.name == name)).map ToolDefinition.inputSchema).getD .null

/-! ## JSON Schema validation
The source performs no validation, but claim C1 speaks about argument
mappings that "do not satisfy the declared input schema", so the relevant
fragment of JSON Schema (exactly the keywords the registry uses: `type`,
`properties`, `required`, `additionalProperties`, `minLength`,
`minimum`/`maximum`, `items`) is embedded to make that notion precise. -/

def typeMatches (t : String) (v : Json) : Bool :=
  match t, v with
  | "object", .obj _ => true
  | "array", .arr _ => true
  | "string", .s _ => true
  | "integer", .i _ => true
  | "boolean", .b _ => true
  | "number", .i _ => true
  | "number", .f _ => true
  | "null", .null => true
  | _, _ => false

/-- Validate `v` against `schema` (fuel-bounded recursion through nested
property/item schemas; keywords not applying to `v`'s type are ignored, per
JSON Schema semantics). -/
def validate : Nat → Json → Json → Bool
  | 0, _, _ => false
  | fuel + 1, schema, v =>
    let typeOk :=
      match schema.jget "type" with
      | some (.s t) => typeMatches t v
      | _ => true
    let props := match schema.jget "properties" with
      | some (.obj ps) => ps
      | _ => []
    let requiredOk :=
      match v, schema.jget "required" with
      | .obj mem, some (.arr req) =>
        req.all (fun r => match r with
          | .s k => (jlookup mem k).isSome
          | _ => true)
      | _, _ => true
    let propsOk :=
      match v with
      | .obj mem =>
        mem.all (fun p => match jlookup props p.1 with
          | some sub => validate fuel sub p.2
          | none => true)
      | _ => true
    let additionalOk :=
      match v, schema.jget "additionalProperties" with
      | .obj mem, some (.b false) => mem.all (fun p => (jlookup props p.1).isSome)
      | _, _ => true
    let minLengthOk :=
      match v, schema.jget "minLength" with
      | .s str, some (.i n) => (str.length : Int) ≥ n
      | _, _ => true
    let minimumOk :=
      match v, schema.jget "minimum" with
      | .i m, some (.i n) => m ≥ n
      | _, _ => true
    let maximumOk :=
      match v, schema.jget "maximum" with
      | .i m, some (.i n) => m ≤ n
      | _, _ => true
    let itemsOk :=
      match v, schema.jget "items" with
      | .arr elems, some sub => elems.all (fun e => validate fuel sub e)
      | _, _ => true
    typeOk && requiredOk && propsOk && additionalOk && minLengthOk
      && minimumOk && maximumOk && itemsOk

example : validate 9 searchItemsSchema (.obj [("query", .s "x")]) = true := by rfl
example : validate 9 searchItemsSchema (.obj []) = false := by rfl
example : validate 9 searchItemsSchema (.obj [("query", .s "x"), ("limit", .i 51)]) = false := by rfl
example : validate 9 searchItemsSchema (.obj [("query", .s "x"), ("bogus", .i 1)]) = false := by rfl
example : validate 9 saveDocumentationSchema (.obj []) = false := by rfl
example : validate 9 saveDocumentationSchema
    (.obj [("api_name", .s "a"), ("documentation", .s "d"), ("tags", .arr [.s "t"])]) = true := by rfl

/-! ## Dispatch and the `POST /mcp` endpoint (src/test_mcp/http_server.py) -/

/-- A Python exception escaping a tool body: a raised `HTTPException`
(`http`) or any other exception (`err`). -/
inductive PyExn where
  | http (status : Nat) (detail : String) : PyExn
  | err (msg : String) : PyExn

/-- Tag the effects of a dispatched call with the tool whose body ran. -/
def withTool (n : String) (p : Except PyExn Json × Effects) : Except PyExn Json × Effects :=
  (p.1, { p.2 with toolRun := some n })

/-- A tool that reads `arguments.get(...)` raises `AttributeError` when the
dispatched `arguments` value is not a dict. -/
def asDict (argJ : Json) : Except PyExn (List (String × Json)) :=
  match argJ with
  | .obj a => .ok a
  | _ => .error (.err "AttributeError: arguments is not a dict")

/-- `execute_tool(name, arguments)`: dispatch on the (Python) value of
`params.get("name")` with no validation of `arguments`. Performs exactly the
comparisons `name == "search_items"`, ... of the source; an unregistered (or
non-string, or absent) name raises `HTTPException(404)`. -/
def execute_tool (name : Option Json) (argJ : Json) (st : Settings) (w : World) :
    Except PyExn Json × Effects :=
  if optIsStr name "search_items" then
    withTool "search_items"
      ((asDict argJ).bind (fun a => (search_items_tool a).mapError .err), noEffects)
  else if optIsStr name "get_item" then
    withTool "get_item" ((asDict argJ).map get_item_tool, noEffects)
  else if optIsStr name "health" then
    withTool "health" (.ok health_tool, noEffects)
  else if optIsStr name "get_documentation" then
    withTool "get_documentation"
      (.ok (get_documentation_tool st w argJ).1,
       { noEffects with queryAttempted := (get_documentation_tool st w argJ).2 })
  else if optIsStr name "save_documentation" then
    withTool "save_documentation"
      (.ok (save_documentation_tool st w argJ).1, (save_documentation_tool st w argJ).2)
  else
    (.error (.http 404 ("Unknown tool: " ++ pyStr ((name).getD .null))), noEffects)

structure HttpResponse where
  status : Nat
  body : Json

/-- The JSON-RPC error body the endpoint builds. -/
def errBody (idJ : Json) (code : Int) (message : String) : Json :=
  .obj [("jsonrpc", .s "2.0"), ("id", idJ),
        ("error", .obj [("code", .i code), ("message", .s message)])]

/-- The JSON-RPC result body the endpoint builds. -/
def resultBody (idJ : Json) (result : Json) : Json :=
  .obj [("jsonrpc", .s "2.0"), ("id", idJ), ("result", result)]

/-- The static `initialize` result. -/
def initializeResult : Json :=
  .obj [("protocolVersion", .s "2025-03-26"),
        ("capabilities", .obj [("tools", .obj [])]),
        ("serverInfo", .obj [("name", .s "test-mcp-server"), ("version", .s "0.1.0")])]

/-- The `tools/list` result: `[t.model_dump() for t in tools]`. -/
def toolsListResult : Json :=
  .obj [("tools", .arr (get_tool_definitions.map ToolDefinition.model_dump))]

/-- The request-independent context of one `POST /mcp` call: the configured
expected token, the request's `Authorization` header, the settings and the
external world. -/
structure Ctx where
  expectedToken : String
  authHeader : Option String
  settings : Settings
  world : World

/-- Python truthiness of the optional header (`if token:`). -/
def headerTruthy : Option String → Bool
  | none => false
  | some v => !v.isEmpty

/-- The body of `mcp_endpoint` after the auth check. `.error` is an uncaught
Python exception (only `params.get("name")` on a non-dict `params` can raise
outside a `try`), which FastAPI would turn into a plain 500. -/
def mcpCore (ctx : Ctx) (payload : List (String × Json)) : Except String HttpResponse × Effects :=
  let rpc_id := pyGet payload "id"
  let rpcIdJ := rpc_id.getD .null
  let method := pyGet payload "method"
  let params := (jlookup payload "params").getD (.obj [])
  if !optIsStr (jlookup payload "jsonrpc") "2.0" then
    (.ok ⟨400, errBody rpcIdJ (-32600) "Invalid Request - not JSON-RPC 2.0"⟩, noEffects)
  else if rpc_id.isNone then
    (.ok ⟨200, .obj [("ok", .b true)]⟩, noEffects)
  else if optIsStr method "initialize" then
    (.ok ⟨200, resultBody rpcIdJ initializeResult⟩, noEffects)
  else if optIsStr method "tools/list" then
    (.ok ⟨200, resultBody rpcIdJ toolsListResult⟩, noEffects)
  else if optIsStr method "tools/call" then
    match params with
    | .obj pl =>
      let tool_name := pyGet pl "name"
      let arguments := (jlookup pl "arguments").getD (.obj [])
      match execute_tool tool_name arguments ctx.settings ctx.world with
      | (.ok result, eff) =>
        (.ok ⟨200, resultBody rpcIdJ
          (.obj [("content", .arr [.obj [("type", .s "text"),
                                         ("text", .s (jsonDumps result))]])])⟩, eff)
      | (.error (.http status detail), eff) =>
        (.ok ⟨status, errBody rpcIdJ (-32603) detail⟩, eff)
      | (.error (.err m), eff) =>
        (.ok ⟨500, errBody rpcIdJ (-32603) ("Internal error: " ++ m)⟩, eff)
    | _ => (.error "AttributeError: params is not a dict", noEffects)
  else
    (.ok ⟨400, errBody rpcIdJ (-32601)
      ("Method not found: " ++ pyStr (method.getD .null))⟩, noEffects)

/-- Outcome of one `POST /mcp` request: the auth short-circuit
(`HTTPException` raised by `verify_auth`), a normal JSON response, or an
uncaught exception. -/
inductive EndpointOutcome where
  | authError (status : Nat) (detail : String) : EndpointOutcome
  | response (r : HttpResponse) : EndpointOutcome
  | uncaught (msg : String) : EndpointOutcome

def liftCore (p : Except String HttpResponse × Effects) : EndpointOutcome × Effects :=
  match p with
  | (.ok r, eff) => (.response r, eff)
  | (.error m, eff) => (.uncaught m, eff)

/-- `mcp_endpoint`: `if token: verify_auth(token)`, then the JSON-RPC body. -/
def mcp_endpoint (ctx : Ctx) (payload : List (String × Json)) : EndpointOutcome × Effects :=
  if headerTruthy ctx.authHeader then
    match verify_auth ctx.expectedToken (ctx.authHeader.getD "") with
    | .error e => (.authError e.status e.detail, noEffects)
    | .ok _ => liftCore (mcpCore ctx payload)
  else
    liftCore (mcpCore ctx payload)

/- Fixed concrete contexts used by witnesses and counterexamples. -/

def st0 : Settings := ⟨"", "", "", ""⟩

def stCfg : Settings := ⟨"https://sb.example", "sbkey", "oaikey", "vs_1"⟩

def w0 : World := ⟨.ok none, .ok [], .ok "file_1", .ok (.obj [("id", .s "vsf_1")]), "2025-10-08T09:00:00"⟩

def wInsertOk : World :=
  ⟨.ok (some (.s "gen-id-1")), .ok [], .error "upload down", .error "attach down", "2025-10-08T09:00:00"⟩

def ctx0 : Ctx := ⟨"", none, st0, w0⟩

example : mcp_endpoint ctx0 [("jsonrpc", .s "2.0"), ("id", .i 7), ("method", .s "tools/list")]
    = (.response ⟨200, resultBody (.i 7) toolsListResult⟩, noEffects) := by rfl

example : mcp_endpoint ctx0 [("jsonrpc", .s "2.0"), ("id", .i 7), ("method", .s "initialize")]
    = (.response ⟨200, resultBody (.i 7) initializeResult⟩, noEffects) := by rfl

/-! ## Helper lemmas -/

theorem asString_data (s : String) : s.data.asString = s := rfl

/-- Splitting `"Bearer " ++ t` at the first space recovers the scheme and the
token, for every `t` (the first space is the literal one). -/
theorem pyPartitionSpace_bearer (t : String) :
    pyPartitionSpace ("Bearer " ++ t) = ("Bearer", t) := by
  obtain ⟨l⟩ := t
  rfl

theorem toLowerStr_bearer : toLowerStr "Bearer" = "bearer" := rfl

theorem bearer_append_ne_empty (t : String) : "Bearer " ++ t ≠ "" := by
  obtain ⟨l⟩ := t
  intro h
  exact absurd (congrArg String.data h) (by simp [String.instAppend, String.append])

/-- `verify_auth` on a well-formed bearer header reduces to the token check. -/
theorem verify_auth_bearer (expected t : String) (h : t ≠ "") :
    verify_auth expected ("Bearer " ++ t) =
      if expected ≠ "" ∧ pyStrip qCh t ≠ expected then .error ⟨403, "Invalid token"⟩
      else .ok (pyStrip qCh t) := by
  unfold verify_auth
  rw [if_neg (bearer_append_ne_empty t)]
  simp only [pyPartitionSpace_bearer, toLowerStr_bearer]
  rw [if_neg (by simp), if_neg h]

/-- C9: for every Authorization header of the form `Bearer <token>` with a
non-empty token, verification succeeds (returns instead of raising) exactly
when the configured expected token is empty or the presented token with its
surrounding double-quote characters stripped equals the expected token; in
particular `Bearer "T"` (the token wrapped in literal double quotes)
authenticates against expected token `T` whenever stripping the quoted form
recovers `T`. -/
theorem C9_verify_auth_quote_stripping :
    (∀ (expected t : String), t ≠ "" →
      ((∃ r, verify_auth expected ("Bearer " ++ t) = .ok r) ↔
        (expected = "" ∨ pyStrip qCh t = expected))) ∧
    (∀ (T : String), pyStrip qCh (qStr ++ T ++ qStr) = T →
      verify_auth T ("Bearer " ++ (qStr ++ T ++ qStr)) = .ok T) := by
  constructor
  · intro expected t h
    rw [verify_auth_bearer expected t h]
    constructor
    · intro ⟨r, hr⟩
      by_cases hc : expected ≠ "" ∧ pyStrip qCh t ≠ expected
      · rw [if_pos hc] at hr
        exact absurd hr (by simp)
      · push_neg at hc
        by_cases he : expected = ""
        · exact Or.inl he
        · exact Or.inr (hc he)
    · intro hd
      have hc : ¬(expected ≠ "" ∧ pyStrip qCh t ≠ expected) := by
        rcases hd with he | hs
        · exact fun hx => hx.1 he
        · exact fun hx => hx.2 hs
      rw [if_neg hc]
      exact ⟨pyStrip qCh t, rfl⟩
  · intro T hT
    have hne : qStr ++ T ++ qStr ≠ "" := by
      obtain ⟨l⟩ := T
      intro h
      exact absurd (congrArg String.data h) (by simp [qStr, String.instAppend, String.append])
    rw [verify_auth_bearer T (qStr ++ T ++ qStr) hne, hT]
    simp

/-- Witness for C9: the configured token `sekret` accepts both the plain and
the double-quoted presentation of itself. -/
theorem C9_witness :
    ("sekret" : String) ≠ "" ∧
    ((∃ r, verify_auth "tok" ("Bearer " ++ "sekret") = .ok r) ↔
      (("tok" : String) = "" ∨ pyStrip qCh "sekret" = "tok")) ∧
    pyStrip qCh (qStr ++ "sekret" ++ qStr) = "sekret" ∧
    verify_auth "sekret" ("Bearer " ++ (qStr ++ "sekret" ++ qStr)) = .ok "sekret" :=
  ⟨by decide,
   C9_verify_auth_quote_stripping.1 "tok" "sekret" (by decide),
   by rfl,
   C9_verify_auth_quote_stripping.2 "sekret" (by rfl)⟩

/-- C3: for every integer `limit` in `[1, 50]` and every query string,
`search_items` returns at most `limit` items which form a prefix of the fixed
candidate list, `nextCursor` is `null` exactly when the candidate count (3)
is at most `limit` and is the placeholder cursor otherwise, and an absent
`limit` behaves as the default 10. -/
theorem C3_search_items_spec :
    (∀ (q : String) (limit : Int), 1 ≤ limit → limit ≤ 50 →
      ∃ items next,
        search_items_tool [("query", .s q), ("limit", .i limit)] =
          .ok (.obj [("items", .arr items), ("nextCursor", next), ("total", .i 3)]) ∧
        (items.length : Int) ≤ limit ∧
        items <+: mock_items q ∧
        (next = .null ↔ (3 : Int) ≤ limit) ∧
        (¬ (3 : Int) ≤ limit → next = .s "cursor_next_page")) ∧
    (∀ q : String,
      search_items_tool [("query", .s q)] =
        search_items_tool [("query", .s q), ("limit", .i 10)]) := by
  constructor
  · intro q limit h1 h50
    refine ⟨pySliceTo limit (mock_items q),
      if ((mock_items q).length : Int) > limit then .s "cursor_next_page" else .null,
      ?_, ?_, ?_, ?_, ?_⟩
    · simp [search_items_tool, jlookup, List.find?, pyStr, mock_items]
    · have h0 : (0 : Int) ≤ limit := by omega
      simp only [pySliceTo, if_pos h0, List.length_take]
      have : ((mock_items q).take limit.toNat).length ≤ limit.toNat :=
        List.length_take_le limit.toNat (mock_items q)
      omega
    · have h0 : (0 : Int) ≤ limit := by omega
      simp only [pySliceTo, if_pos h0]
      exact List.take_prefix limit.toNat (mock_items q)
    · have hlen : ((mock_items q).length : Int) = 3 := by simp [mock_items]
      rw [hlen]
      by_cases hc : (3 : Int) > limit
      · rw [if_pos hc]
        constructor
        · intro h
          exact absurd h (by simp)
        · omega
      · rw [if_neg hc]
        constructor
        · intro _; omega
        · intro _; rfl
    · have hlen : ((mock_items q).length : Int) = 3 := by simp [mock_items]
      rw [hlen]
      intro hc
      rw [if_pos (by omega)]
  · intro q
    simp [search_items_tool, jlookup, List.find?]

/-- Witness for C3 at `limit = 2` (truncation and placeholder cursor) and the
default-limit equality at a concrete query. -/
theorem C3_witness :
    ((1 : Int) ≤ 2 ∧ (2 : Int) ≤ 50 ∧
      ∃ items next,
        search_items_tool [("query", .s "alpha"), ("limit", .i 2)] =
          .ok (.obj [("items", .arr items), ("nextCursor", next), ("total", .i 3)]) ∧
        (items.length : Int) ≤ 2 ∧
        items <+: mock_items "alpha" ∧
        (next = .null ↔ (3 : Int) ≤ 2) ∧
        (¬ (3 : Int) ≤ 2 → next = .s "cursor_next_page")) ∧
    search_items_tool [("query", .s "alpha")] =
      search_items_tool [("query", .s "alpha"), ("limit", .i 10)] :=
  ⟨⟨by norm_num, by norm_num,
    C3_search_items_spec.1 "alpha" 2 (by norm_num) (by norm_num)⟩,
   C3_search_items_spec.2 "alpha"⟩

/-- The claim C5 end-to-end request body. -/
def payloadC5 : List (String × Json) :=
  [("jsonrpc", .s "2.0"), ("id", .i 1), ("method", .s "tools/call"),
   ("params", .obj [("name", .s "get_item"), ("arguments", .obj [("id", .s "abc")])])]

set_option maxRecDepth 10000 in
/-- C5: `get_item` always returns a record whose `id` field equals the given
id string; end-to-end, `POST /mcp` with the `tools/call` body for
`get_item` at id `abc` yields a response with id 1 whose
`result.content[0].text` parses as JSON containing id `abc`. -/
theorem C5_get_item_roundtrip :
    (∀ x : String, (get_item_tool [("id", .s x)]).jget "id" = some (.s x)) ∧
    (∃ body txt v,
      mcp_endpoint ctx0 payloadC5 =
        (.response ⟨200, body⟩, { noEffects with toolRun := some "get_item" }) ∧
      body.jget "id" = some (.i 1) ∧
      (body.jget "result").map (fun r => r.jget "content")
        = some (some (.arr [.obj [("type", .s "text"), ("text", .s txt)]])) ∧
      parseJson txt = some v ∧
      v.jget "id" = some (.s "abc")) := by
  constructor
  · intro x
    simp [get_item_tool, Json.jget, jlookup, List.find?]
  · refine ⟨resultBody (.i 1)
      (.obj [("content", .arr [.obj [("type", .s "text"),
        ("text", .s (jsonDumps (get_item_tool [("id", .s "abc")])))]])]),
      jsonDumps (get_item_tool [("id", .s "abc")]),
      get_item_tool [("id", .s "abc")], ?_, ?_, ?_, ?_, ?_⟩
    · rfl
    · rfl
    · rfl
    · rfl
    · rfl

/-- C6: once the store insert has succeeded, no outcome of the vector-store
upload steps (file upload or attach, both taken from the arbitrary `World`)
can make `save_documentation` unsuccessful — the result still carries
`success = true` and the generated identifier. -/
theorem C6_upload_failure_nonfatal :
    ∀ (st : Settings) (w : World) (a : List (String × Json)) (d : Option Json),
      supabaseCredsMissing st = false →
      w.insertResult = .ok d →
      (save_documentation_tool st w (.obj a)).1.jget "success" = some (.b true) ∧
      (save_documentation_tool st w (.obj a)).1.jget "id" = some (d.getD .null) := by
  intro st w a d h hins
  simp [save_documentation_tool, h, hins, Json.jget, jlookup, List.find?]

/-- Witness for C6: a save whose insert succeeded but whose file upload and
vector-store attach both fail still reports success with the generated id. -/
theorem C6_witness :
    wInsertOk.fileUploadId = .error "upload down" ∧
    wInsertOk.vectorAttachResp = .error "attach down" ∧
    (save_documentation_tool stCfg wInsertOk
        (.obj [("api_name", .s "Stripe"), ("documentation", .s "docs"),
               ("short_description", .s "pay")])).1.jget "success" = some (.b true) ∧
    (save_documentation_tool stCfg wInsertOk
        (.obj [("api_name", .s "Stripe"), ("documentation", .s "docs"),
               ("short_description", .s "pay")])).1.jget "id" = some (.s "gen-id-1") :=
  ⟨rfl, rfl,
   (C6_upload_failure_nonfatal stCfg wInsertOk
     [("api_name", .s "Stripe"), ("documentation", .s "docs"),
      ("short_description", .s "pay")] (some (.s "gen-id-1")) rfl rfl).1,
   (C6_upload_failure_nonfatal stCfg wInsertOk
     [("api_name", .s "Stripe"), ("documentation", .s "docs"),
      ("short_description", .s "pay")] (some (.s "gen-id-1")) rfl rfl).2⟩

/-- C7: with the vector-store credentials unset (empty API key or empty store
id) the upload step is never attempted, and whenever the store insert
succeeded the result still reports `success = true` with a null
`vector_store_file_id` and the plain message that does not mention the
vector store. -/
theorem C7_no_vector_creds_skips_upload :
    ∀ (st : Settings) (w : World) (argJ : Json),
      (st.OPENAI_API_KEY = "" ∨ st.OPENAI_VECTOR_STORE_ID = "") →
      (save_documentation_tool st w argJ).2.uploadAttempted = false ∧
      (∀ (a : List (String × Json)) (d : Option Json),
        argJ = .obj a →
        supabaseCredsMissing st = false →
        w.insertResult = .ok d →
        (save_documentation_tool st w argJ).1 =
          .obj [("success", .b true), ("id", d.getD .null),
                ("vector_store_file_id", Json.null),
                ("message", .s "Documentation saved successfully")]) := by
  intro st w argJ h
  have hkey : (!st.OPENAI_API_KEY.isEmpty && !st.OPENAI_VECTOR_STORE_ID.isEmpty) = false := by
    rcases h with h | h
    · rw [h]; rfl
    · rw [h]; exact Bool.and_false _
  constructor
  · by_cases hc : supabaseCredsMissing st
    · simp [save_documentation_tool, hc, noEffects]
    · cases argJ with
      | obj a =>
        cases hins : w.insertResult with
        | error e =>
          simp [save_documentation_tool, hc, hins, noEffects]
        | ok d =>
          simp only [save_documentation_tool, hc, hins, Bool.if_false_right,
            Bool.if_true_left, if_false, Bool.false_eq_true]
          simp [Bool.and_assoc, hkey, noEffects]
      | null => simp [save_documentation_tool, hc, noEffects]
      | b v => simp [save_documentation_tool, hc, noEffects]
      | i n => simp [save_documentation_tool, hc, noEffects]
      | f lit => simp [save_documentation_tool, hc, noEffects]
      | s v => simp [save_documentation_tool, hc, noEffects]
      | arr l => simp [save_documentation_tool, hc, noEffects]
  · rintro a d rfl hc hins
    simp only [save_documentation_tool, hc, hins, Bool.false_eq_true, if_false]
    simp [Bool.and_assoc, hkey, optTruthy]

/-- Witness for C7: empty OpenAI credentials, successful insert, a truthy
`short_description`: the upload is not attempted and the save succeeds with
a null vector-store file id. -/
theorem C7_witness :
    ((("" : String) = "" ∨ ("" : String) = "") ∧
      (save_documentation_tool ⟨"https://sb.example", "sbkey", "", ""⟩ wInsertOk
        (.obj [("api_name", .s "Stripe"), ("documentation", .s "docs"),
               ("short_description", .s "pay")])).2.uploadAttempted = false) ∧
    (save_documentation_tool ⟨"https://sb.example", "sbkey", "", ""⟩ wInsertOk
        (.obj [("api_name", .s "Stripe"), ("documentation", .s "docs"),
               ("short_description", .s "pay")])).1 =
      .obj [("success", .b true), ("id", .s "gen-id-1"),
            ("vector_store_file_id", Json.null),
            ("message", .s "Documentation saved successfully")] :=
  ⟨⟨Or.inl rfl,
    (C7_no_vector_creds_skips_upload ⟨"https://sb.example", "sbkey", "", ""⟩ wInsertOk
      (.obj [("api_name", .s "Stripe"), ("documentation", .s "docs"),
             ("short_description", .s "pay")]) (Or.inl rfl)).1⟩,
   (C7_no_vector_creds_skips_upload ⟨"https://sb.example", "sbkey", "", ""⟩ wInsertOk
      (.obj [("api_name", .s "Stripe"), ("documentation", .s "docs"),
             ("short_description", .s "pay")]) (Or.inl rfl)).2
     [("api_name", .s "Stripe"), ("documentation", .s "docs"),
      ("short_description", .s "pay")] (some (.s "gen-id-1")) rfl rfl rfl⟩

/-- Counterexample to C2 as stated: the body `{"id": null}` has a null id,
yet the response carries an `error` key (the `jsonrpc` envelope check runs
before the notification check). -/
theorem C2_counterexample :
    mcp_endpoint ctx0 [("id", Json.null)] =
      (.response ⟨400, errBody .null (-32600) "Invalid Request - not JSON-RPC 2.0"⟩,
       noEffects) ∧
    (errBody .null (-32600) "Invalid Request - not JSON-RPC 2.0").jget "error" =
      some (.obj [("code", .i (-32600)),
                  ("message", .s "Invalid Request - not JSON-RPC 2.0")]) :=
  ⟨rfl, rfl⟩

/-- C2 (amended): for a request that passes authentication and whose
`jsonrpc` field is `"2.0"`, a null or absent `id` yields exactly the bare
acknowledgment body (no `result` key, no `error` key) and no tool executes;
when `jsonrpc` is not `"2.0"`, however, even a null-id body receives an
error response, because the envelope check precedes the notification
check. -/
theorem C2_notification_ack :
    ∀ (ctx : Ctx) (payload : List (String × Json)),
      headerTruthy ctx.authHeader = false →
      optIsStr (jlookup payload "jsonrpc") "2.0" = true →
      pyGet payload "id" = none →
      mcp_endpoint ctx payload = (.response ⟨200, .obj [("ok", .b true)]⟩, noEffects) ∧
      (Json.obj [("ok", .b true)]).jget "result" = none ∧
      (Json.obj [("ok", .b true)]).jget "error" = none := by
  intro ctx payload hh hj hid
  refine ⟨?_, rfl, rfl⟩
  simp [mcp_endpoint, hh, mcpCore, hj, hid, liftCore]

/-- Witness for C2 (amended) at the concrete notification
`{"jsonrpc": "2.0", "id": null, "method": "notifications/initialized"}`. -/
theorem C2_witness :
    mcp_endpoint ctx0
        [("jsonrpc", .s "2.0"), ("id", Json.null), ("method", .s "notifications/initialized")] =
      (.response ⟨200, .obj [("ok", .b true)]⟩, noEffects) ∧
    (Json.obj [("ok", .b true)]).jget "result" = none ∧
    (Json.obj [("ok", .b true)]).jget "error" = none :=
  C2_notification_ack ctx0
    [("jsonrpc", .s "2.0"), ("id", Json.null), ("method", .s "notifications/initialized")]
    rfl rfl rfl

/-- Counterexample to C4 as stated: the body
`{"jsonrpc": "2.0", "id": null, "method": "bogus/method"}` names an unknown
method, yet the response is the plain notification acknowledgment — no
`-32601` error (the null id short-circuits before method dispatch). -/
theorem C4_counterexample :
    mcp_endpoint ctx0 [("jsonrpc", .s "2.0"), ("id", Json.null), ("method", .s "bogus/method")] =
      (.response ⟨200, .obj [("ok", .b true)]⟩, noEffects) ∧
    (Json.obj [("ok", .b true)]).jget "error" = none :=
  ⟨rfl, rfl⟩

/-- C4 (amended): for a request that passes authentication, a body whose
`jsonrpc` field is not `"2.0"` yields a 400 response with error code
`-32600`; for a body with a non-null id, an unknown method yields error code
`-32601`, and any internal or tool failure during `tools/call` — every
exception `execute_tool` raises, including naming an unregistered tool
(HTTP 404) — yields an error response with code `-32603` and never a
`result` key; but a body with a null or absent id is acknowledged without
any of these errors. -/
theorem C4_error_codes :
    (∀ (ctx : Ctx) (payload : List (String × Json)),
      headerTruthy ctx.authHeader = false →
      optIsStr (jlookup payload "jsonrpc") "2.0" = false →
      mcp_endpoint ctx payload =
        (.response ⟨400, errBody ((pyGet payload "id").getD .null) (-32600)
          "Invalid Request - not JSON-RPC 2.0"⟩, noEffects)) ∧
    (∀ (ctx : Ctx) (payload : List (String × Json)),
      headerTruthy ctx.authHeader = false →
      optIsStr (jlookup payload "jsonrpc") "2.0" = true →
      (pyGet payload "id").isSome = true →
      optIsStr (pyGet payload "method") "initialize" = false →
      optIsStr (pyGet payload "method") "tools/list" = false →
      optIsStr (pyGet payload "method") "tools/call" = false →
      mcp_endpoint ctx payload =
        (.response ⟨400, errBody ((pyGet payload "id").getD .null) (-32601)
          ("Method not found: " ++ pyStr ((pyGet payload "method").getD .null))⟩,
         noEffects)) ∧
    (∀ (ctx : Ctx) (payload : List (String × Json)) (pl : List (String × Json))
        (e : PyExn) (eff : Effects),
      headerTruthy ctx.authHeader = false →
      optIsStr (jlookup payload "jsonrpc") "2.0" = true →
      (pyGet payload "id").isSome = true →
      optIsStr (pyGet payload "method") "tools/call" = true →
      jlookup payload "params" = some (.obj pl) →
      execute_tool (pyGet pl "name") ((jlookup pl "arguments").getD (.obj []))
          ctx.settings ctx.world = (.error e, eff) →
      ∃ (status : Nat) (msg : String),
        mcp_endpoint ctx payload =
          (.response ⟨status, errBody ((pyGet payload "id").getD .null) (-32603) msg⟩, eff) ∧
        (errBody ((pyGet payload "id").getD .null) (-32603) msg).jget "result" = none) ∧
    (∀ (ctx : Ctx) (payload : List (String × Json)) (pl : List (String × Json)) (n : String),
      headerTruthy ctx.authHeader = false →
      optIsStr (jlookup payload "jsonrpc") "2.0" = true →
      (pyGet payload "id").isSome = true →
      optIsStr (pyGet payload "method") "tools/call" = true →
      jlookup payload "params" = some (.obj pl) →
      pyGet pl "name" = some (.s n) →
      n ∉ registryNames →
      mcp_endpoint ctx payload =
        (.response ⟨404, errBody ((pyGet payload "id").getD .null) (-32603)
          ("Unknown tool: " ++ n)⟩, noEffects) ∧
      (errBody ((pyGet payload "id").getD .null) (-32603)
          ("Unknown tool: " ++ n)).jget "result" = none) := by
  refine ⟨?_, ?_, ?_, ?_⟩
  · intro ctx payload hh hj
    simp [mcp_endpoint, hh, mcpCore, hj, liftCore]
  · intro ctx payload hh hj hid m1 m2 m3
    obtain ⟨v, hv⟩ := Option.isSome_iff_exists.mp hid
    simp [mcp_endpoint, hh, mcpCore, hj, hv, m1, m2, m3, liftCore]
  · intro ctx payload pl e eff hh hj hid hm hp hexec
    obtain ⟨v, hv⟩ := Option.isSome_iff_exists.mp hid
    have hm1 : optIsStr (pyGet payload "method") "initialize" = false := by
      cases hpm : pyGet payload "method" with
      | none => rfl
      | some j =>
        rw [hpm] at hm
        cases j <;> simp_all [optIsStr, Json.isStr]
    have hm2 : optIsStr (pyGet payload "method") "tools/list" = false := by
      cases hpm : pyGet payload "method" with
      | none => rfl
      | some j =>
        rw [hpm] at hm
        cases j <;> simp_all [optIsStr, Json.isStr]
    cases e with
    | http status detail =>
      refine ⟨status, detail, ?_, rfl⟩
      simp [mcp_endpoint, hh, mcpCore, hj, hv, hm1, hm2, hm, hp, hexec, liftCore]
    | err m =>
      refine ⟨500, "Internal error: " ++ m, ?_, rfl⟩
      simp [mcp_endpoint, hh, mcpCore, hj, hv, hm1, hm2, hm, hp, hexec, liftCore]
  · intro ctx payload pl n hh hj hid hm hp hn hreg
    simp only [registryNames, get_tool_definitions, List.map_cons, List.map_nil,
      List.mem_cons, List.not_mem_nil, or_false, not_or] at hreg
    obtain ⟨hr1, hr2, hr3, hr4, hr5⟩ := hreg
    obtain ⟨v, hv⟩ := Option.isSome_iff_exists.mp hid
    have hm1 : optIsStr (pyGet payload "method") "initialize" = false := by
      cases hpm : pyGet payload "method" with
      | none => rfl
      | some j =>
        rw [hpm] at hm
        cases j <;> simp_all [optIsStr, Json.isStr]
    have hm2 : optIsStr (pyGet payload "method") "tools/list" = false := by
      cases hpm : pyGet payload "method" with
      | none => rfl
      | some j =>
        rw [hpm] at hm
        cases j <;> simp_all [optIsStr, Json.isStr]
    have e1 : optIsStr (some (Json.s n)) "search_items" = false := by
      simp [optIsStr, Json.isStr, hr1]
    have e2 : optIsStr (some (Json.s n)) "get_item" = false := by
      simp [optIsStr, Json.isStr, hr2]
    have e3 : optIsStr (some (Json.s n)) "health" = false := by
      simp [optIsStr, Json.isStr, hr3]
    have e4 : optIsStr (some (Json.s n)) "get_documentation" = false := by
      simp [optIsStr, Json.isStr, hr4]
    have e5 : optIsStr (some (Json.s n)) "save_documentation" = false := by
      simp [optIsStr, Json.isStr, hr5]
    refine ⟨?_, rfl⟩
    simp [mcp_endpoint, hh, mcpCore, hj, hv, hm1, hm2, hm, hp, liftCore,
      execute_tool, hn, e1, e2, e3, e4, e5, pyStr]

/-- A `tools/call` request whose tool body raises: `search_items` with a
non-dict `arguments` value hits `arguments.get` and raises `AttributeError`,
which the endpoint's generic handler turns into a `-32603` error. -/
def payloadC4err : List (String × Json) :=
  [("jsonrpc", .s "2.0"), ("id", .i 7), ("method", .s "tools/call"),
   ("params", .obj [("name", .s "search_items"), ("arguments", .s "oops")])]

/-- Witness for C4 (amended): the four error shapes at concrete requests. -/
theorem C4_witness :
    mcp_endpoint ctx0 [("jsonrpc", .s "1.0"), ("id", .i 4)] =
      (.response ⟨400, errBody ((pyGet [("jsonrpc", .s "1.0"), ("id", .i 4)] "id").getD .null)
        (-32600) "Invalid Request - not JSON-RPC 2.0"⟩, noEffects) ∧
    mcp_endpoint ctx0 [("jsonrpc", .s "2.0"), ("id", .i 5), ("method", .s "bogus/method")] =
      (.response ⟨400, errBody
        ((pyGet [("jsonrpc", .s "2.0"), ("id", .i 5), ("method", .s "bogus/method")] "id").getD .null)
        (-32601) ("Method not found: " ++ pyStr
          ((pyGet [("jsonrpc", .s "2.0"), ("id", .i 5), ("method", .s "bogus/method")] "method").getD .null))⟩,
       noEffects) ∧
    (∃ (status : Nat) (msg : String),
      mcp_endpoint ctx0 payloadC4err =
        (.response ⟨status, errBody ((pyGet payloadC4err "id").getD .null) (-32603) msg⟩,
         ⟨some "search_items", false, false, false⟩) ∧
      (errBody ((pyGet payloadC4err "id").getD .null) (-32603) msg).jget "result" = none) ∧
    mcp_endpoint ctx0 [("jsonrpc", .s "2.0"), ("id", .i 6), ("method", .s "tools/call"),
        ("params", .obj [("name", .s "no_such_tool")])] =
      (.response ⟨404, errBody
        ((pyGet [("jsonrpc", .s "2.0"), ("id", .i 6), ("method", .s "tools/call"),
          ("params", .obj [("name", .s "no_such_tool")])] "id").getD .null)
        (-32603) ("Unknown tool: " ++ "no_such_tool")⟩, noEffects) :=
  ⟨C4_error_codes.1 ctx0 [("jsonrpc", .s "1.0"), ("id", .i 4)] rfl rfl,
   C4_error_codes.2.1 ctx0 [("jsonrpc", .s "2.0"), ("id", .i 5), ("method", .s "bogus/method")]
     rfl rfl rfl rfl rfl rfl,
   C4_error_codes.2.2.1 ctx0 payloadC4err
     [("name", .s "search_items"), ("arguments", .s "oops")]
     (.err "AttributeError: arguments is not a dict")
     ⟨some "search_items", false, false, false⟩
     rfl rfl rfl rfl rfl rfl,
   (C4_error_codes.2.2.2 ctx0 [("jsonrpc", .s "2.0"), ("id", .i 6), ("method", .s "tools/call"),
       ("params", .obj [("name", .s "no_such_tool")])] [("name", .s "no_such_tool")] "no_such_tool"
     rfl rfl rfl rfl rfl rfl (by decide)).1⟩

/-- Counterexample to C8 as stated: with no expected token configured
(`MCP_API_KEY` empty) a request carrying the header `Basic abc` is still
rejected with a 401 auth error — the scheme check in `verify_auth` fires
even though no expected token is configured. -/
theorem C8_counterexample :
    mcp_endpoint ⟨"", some "Basic abc", st0, w0⟩
        [("jsonrpc", .s "2.0"), ("id", .i 1), ("method", .s "tools/list")] =
      (.authError 401 "Invalid authorization scheme. Use Bearer token.", noEffects) := by
  rfl

/-- C8 (amended): the `/mcp` handler auth-rejects exactly when the
Authorization header is truthy and `verify_auth` raises on it. A request
with no (or empty) header is always accepted past authentication, and with
no expected token configured a well-formed bearer header is also accepted —
but a header failing `verify_auth`'s scheme or empty-token checks is
rejected even when no expected token is configured. -/
theorem C8_auth_gate :
    (∀ (ctx : Ctx) (payload : List (String × Json)),
      headerTruthy ctx.authHeader = false →
      ∀ (st : Nat) (d : String), (mcp_endpoint ctx payload).1 ≠ .authError st d) ∧
    (∀ (ctx : Ctx) (payload : List (String × Json)) (t : String),
      ctx.expectedToken = "" →
      ctx.authHeader = some ("Bearer " ++ t) →
      t ≠ "" →
      ∀ (st : Nat) (d : String), (mcp_endpoint ctx payload).1 ≠ .authError st d) ∧
    (∀ (ctx : Ctx) (payload : List (String × Json)) (st : Nat) (d : String),
      (mcp_endpoint ctx payload).1 = .authError st d ↔
        (headerTruthy ctx.authHeader = true ∧
         verify_auth ctx.expectedToken (ctx.authHeader.getD "") = .error ⟨st, d⟩)) := by
  have hlift : ∀ (p : Except String HttpResponse × Effects) (st : Nat) (d : String),
      (liftCore p).1 ≠ .authError st d := by
    intro p st d
    obtain ⟨r, eff⟩ := p
    cases r <;> simp [liftCore]
  refine ⟨?_, ?_, ?_⟩
  · intro ctx payload hh st d
    simp only [mcp_endpoint, hh, Bool.false_eq_true, if_false]
    exact hlift _ st d
  · intro ctx payload t he hhdr ht st d
    have hiE : ("Bearer " ++ t).isEmpty = false := by
      rw [Bool.eq_false_iff]
      intro hE
      exact bearer_append_ne_empty t ((String.isEmpty_iff _).mp hE)
    have hh : headerTruthy ctx.authHeader = true := by
      rw [hhdr]
      simp [headerTruthy, hiE]
    simp only [mcp_endpoint, hh, if_true, hhdr, Option.getD_some, he]
    rw [verify_auth_bearer "" t ht]
    simp only [ne_eq, not_true_eq_false, false_and, if_false]
    exact hlift _ st d
  · intro ctx payload st d
    constructor
    · intro h
      by_cases hh : headerTruthy ctx.authHeader
      · refine ⟨hh, ?_⟩
        simp only [mcp_endpoint, hh, if_true] at h
        cases hv : verify_auth ctx.expectedToken (ctx.authHeader.getD "") with
        | error e =>
          rw [hv] at h
          obtain ⟨es, ed⟩ := e
          simp at h
          rw [h.1, h.2]
        | ok tok =>
          rw [hv] at h
          exact absurd h (hlift _ st d)
      · rw [Bool.not_eq_true] at hh
        simp only [mcp_endpoint, hh, Bool.false_eq_true, if_false] at h
        exact absurd h (hlift _ st d)
    · intro ⟨hh, hv⟩
      simp [mcp_endpoint, hh, hv]

/-- Witness for C8 (amended): a header-less request is never auth-rejected,
a bearer request with no configured token is accepted, and the
characterization holds at a rejected concrete request. -/
theorem C8_witness :
    ((mcp_endpoint ctx0 [("jsonrpc", .s "2.0"), ("id", .i 1), ("method", .s "tools/list")]).1
        ≠ .authError 401 "Missing Authorization header") ∧
    ((mcp_endpoint ⟨"", some ("Bearer " ++ "tok"), st0, w0⟩
        [("jsonrpc", .s "2.0"), ("id", .i 1), ("method", .s "tools/list")]).1
        ≠ .authError 403 "Invalid token") ∧
    ((mcp_endpoint ⟨"secret", some "Bearer wrong", st0, w0⟩ []).1 =
        .authError 403 "Invalid token" ↔
      (headerTruthy (some "Bearer wrong") = true ∧
       verify_auth "secret" ((some "Bearer wrong").getD "") = .error ⟨403, "Invalid token"⟩)) :=
  ⟨C8_auth_gate.1 ctx0 [("jsonrpc", .s "2.0"), ("id", .i 1), ("method", .s "tools/list")]
     rfl 401 "Missing Authorization header",
   C8_auth_gate.2.1 ⟨"", some ("Bearer " ++ "tok"), st0, w0⟩
     [("jsonrpc", .s "2.0"), ("id", .i 1), ("method", .s "tools/list")] "tok"
     rfl rfl (by decide) 403 "Invalid token",
   C8_auth_gate.2.2 ⟨"secret", some "Bearer wrong", st0, w0⟩ [] 403 "Invalid token"⟩

/-- Counterexample to C1 as stated: the empty argument mapping does not
satisfy `save_documentation`'s declared input schema (both required fields
are missing), yet dispatch runs the tool body, the store insert is attempted
and the tool returns a success result — nothing rejects the call before its
side effects. -/
theorem C1_counterexample :
    validate 9 (inputSchemaOf "save_documentation") (.obj []) = false ∧
    (execute_tool (some (.s "save_documentation")) (.obj []) stCfg wInsertOk).2.insertAttempted
      = true ∧
    (execute_tool (some (.s "save_documentation")) (.obj []) stCfg wInsertOk).1 =
      .ok (.obj [("success", .b true), ("id", .s "gen-id-1"),
                 ("vector_store_file_id", Json.null),
                 ("message", .s "Documentation saved successfully")]) :=
  ⟨rfl, rfl, rfl⟩

/-- C1 (amended): dispatch performs no input-schema validation — for every
registered tool name, every argument mapping, even one that does not satisfy
the tool's declared input schema, is handed to the tool body, which runs
(and may perform side effects such as the store insert) instead of being
rejected. -/
theorem C1_dispatch_never_validates :
    ∀ (n : String), n ∈ registryNames →
      ∀ (argJ : Json) (st : Settings) (w : World),
        validate 9 (inputSchemaOf n) argJ = false →
        (execute_tool (some (.s n)) argJ st w).2.toolRun = some n := by
  intro n hn argJ st w _
  simp only [registryNames, get_tool_definitions, List.map_cons, List.map_nil,
    List.mem_cons, List.not_mem_nil, or_false] at hn
  rcases hn with rfl | rfl | rfl | rfl | rfl <;> rfl

/-- Witness for C1 (amended): the schema-invalid empty mapping still runs
the `search_items` body. -/
theorem C1_witness :
    ("search_items" ∈ registryNames ∧
      validate 9 (inputSchemaOf "search_items") (.obj []) = false) ∧
    (execute_tool (some (.s "search_items")) (.obj []) st0 w0).2.toolRun
      = some "search_items" :=
  ⟨⟨by decide, rfl⟩,
   C1_dispatch_never_validates "search_items" (by decide) (.obj []) st0 w0 rfl⟩
